import Mathlib

/-!
Verification of the BridgeGuard AI backend against its specification.

The definitions below are a shallow embedding of the Python source:
`backend/app.py` (REST endpoints, rate limiter, in-memory logs),
`backend/qie_node_manager.py` (RPC client and sync polling), and
`backend/database` (SQLAlchemy session discipline, Alert model, seeding).
Machine floats in the source are modelled as rationals; the random scores
drawn by the endpoints are modelled as explicit inputs (the spec describes
them as an injected scoring function); network and database effects are
modelled by explicit outcome parameters and event lists.
-/

/-- Python `round` applied to a rational: round half to even (banker's
rounding), as `round(x)` behaves on exactly representable values. -/
def pyRound (x : ℚ) : ℤ :=
  if x - ⌊x⌋ < 1/2 then ⌊x⌋
  else if 1/2 < x - ⌊x⌋ then ⌊x⌋ + 1
  else if ⌊x⌋ % 2 = 0 then ⌊x⌋ else ⌊x⌋ + 1

/-- Python `round(y, 2)`: round to two decimal places. -/
def pyRound2 (y : ℚ) : ℚ :=
  (pyRound (y * 100) : ℚ) / 100

/-- Severity labels used by the anomaly-score endpoint in `app.py`. -/
inductive Severity where
  | critical
  | high
  | medium
  | low
  deriving DecidableEq, Repr

/-- From `app.py`, `get_anomaly_score`:
`severity = "critical" if s > 0.8 else "high" if s > 0.6 else
"medium" if s > 0.4 else "low"`. -/
def severityOf (s : ℚ) : Severity :=
  if s > 8/10 then .critical
  else if s > 6/10 then .high
  else if s > 4/10 then .medium
  else .low

/-- The record built by `validate_cross_chain` in `app.py` and appended to
`transaction_history` (the chains and timestamp fields are carried through
unchanged and are not relevant to any claim, so the hash and amount stand
for the pass-through fields here). -/
structure TxRecord where
  transaction_hash : String
  valid : Bool
  confidence : ℚ
  amount : ℚ
  deriving DecidableEq, Repr

/-- From `app.py`, `validate_cross_chain`: given the model score
`confidence` drawn in the source by `random.uniform(0.7, 1.0)` (modelled
here as the input `score`), the endpoint computes
`is_valid = confidence > 0.75`, reports `round(confidence * 100, 2)`, and
appends the record to `transaction_history`. -/
def validate_cross_chain (hash : String) (amount : ℚ) (score : ℚ)
    (history : List TxRecord) : TxRecord × List TxRecord :=
  let data : TxRecord :=
    { transaction_hash := hash
      valid := decide (score > 75/100)
      confidence := pyRound2 (score * 100)
      amount := amount }
  (data, history ++ [data])

/-- The record built by `get_anomaly_score` in `app.py` (the reported
`anomaly_score` is `round(score * 100, 2)`; `model_confidence` is the
constant `92.5`). -/
structure AnomalyRecord where
  transaction_hash : String
  anomaly_score : ℚ
  severity : Severity
  model_confidence : ℚ
  deriving DecidableEq, Repr

/-- From `app.py`, `get_anomaly_score`: computes the severity of the raw
score (drawn in the source by `random.uniform(0, 1)`, modelled as the
input `score`), and appends the record to `alerts_log` exactly when
`anomaly_score > 0.7`. -/
def get_anomaly_score (hash : String) (score : ℚ)
    (alerts_log : List AnomalyRecord) : AnomalyRecord × List AnomalyRecord :=
  let data : AnomalyRecord :=
    { transaction_hash := hash
      anomaly_score := pyRound2 (score * 100)
      severity := severityOf score
      model_confidence := 925/10 }
  (data, if score > 7/10 then alerts_log ++ [data] else alerts_log)

/-- The page returned by `get_transaction_history` in `app.py`. -/
structure HistoryPage where
  total : Nat
  limit : Nat
  offset : Nat
  transactions : List TxRecord
  deriving DecidableEq, Repr

/-- From `app.py`, `get_transaction_history`: the Python slice
`transaction_history[offset : offset + limit]` for non-negative bounds is
drop `offset` then take `limit`; `total` is the full history length and
`limit`/`offset` are echoed back. -/
def get_transaction_history (history : List TxRecord) (limit offset : Nat) :
    HistoryPage :=
  { total := history.length
    limit := limit
    offset := offset
    transactions := (history.drop offset).take limit }

/-- From `app.py`: `RATE_LIMIT = 100  # requests per minute`. -/
def RATE_LIMIT : Nat := 100

/-- From `app.py`, `check_rate_limit`: with `cutoff = now - 60`, keep only
the client's timestamps with `req_time > cutoff`; reject when the kept
count has reached the limit (leaving the pruned list as the new state),
otherwise record `now` and admit. Returns the decision and the client's
new timestamp list. -/
def check_rate_limit (limit : Nat) (now : ℚ) (times : List ℚ) :
    Bool × List ℚ :=
  let cutoff := now - 60
  let pruned := times.filter (fun t => decide (cutoff < t))
  if limit ≤ pruned.length then (false, pruned)
  else (true, pruned ++ [now])

/-- Running a sequence of requests (their arrival times, in order) for one
client through `check_rate_limit`, counting admissions and threading the
client's timestamp state. -/
def runRequests (limit : Nat) (times : List ℚ) (reqs : List ℚ) :
    Nat × List ℚ :=
  match reqs with
  | [] => (0, times)
  | r :: rest =>
      let step := check_rate_limit limit r times
      let next := runRequests limit step.2 rest
      ((if step.1 then 1 else 0) + next.1, next.2)

/-- The result dict of `QIENodeManager.wait_for_sync`. -/
structure SyncResult where
  synced : Bool
  attempts : Nat
  height : Nat
  deriving DecidableEq, Repr

/-- The polling loop of `QIENodeManager.wait_for_sync`: `health` gives the
outcome of the n-th `check_node_health` call (healthy flag and reported
height). `attempt` is the 0-based loop index, `remaining` the loop
iterations left. When the loop exhausts `max_attempts` iterations the
source makes one further `check_node_health` call (index `attempt`) only
to report the final height. -/
def waitLoop (health : Nat → Bool × Nat) (attempt remaining : Nat) :
    SyncResult :=
  match remaining with
  | 0 => { synced := false, attempts := attempt, height := (health attempt).2 }
  | r + 1 =>
      let h := health attempt
      if h.1 then { synced := true, attempts := attempt + 1, height := h.2 }
      else waitLoop health (attempt + 1) r

/-- From `qie_node_manager.py`, `QIENodeManager.wait_for_sync`: polls
`check_node_health` up to `max_attempts` times (the `interval` sleep has
no effect on the result and is not modelled). -/
def wait_for_sync (health : Nat → Bool × Nat) (max_attempts : Nat) :
    SyncResult :=
  waitLoop health 0 max_attempts

/-- Outcome of one HTTP attempt by the RPC client's session: connection
failure, timeout, any other transport exception (including an unparsable
body), or a response with its HTTP status and parsed JSON-RPC body
(`error` is `some` when the body's `error` field is present and truthy;
`result` is the body's `result` field). -/
inductive HttpOutcome where
  | connError
  | timeoutErr
  | exc
  | resp (status : Nat) (error : Option String)
      (result : Option (List (String × String)))
  deriving DecidableEq, Repr

/-- From `QIENodeManager._create_session`:
`Retry(..., status_forcelist=[429, 500, 502, 503, 504], ...)`. -/
def status_forcelist : List Nat := [429, 500, 502, 503, 504]

/-- From `QIENodeManager._create_session`: `Retry(total=3, ...)`. -/
def retry_total : Nat := 3

/-- From `QIENodeManager._create_session`: `Retry(..., backoff_factor=1)`. -/
def backoff_factor : ℚ := 1

/-- An attempt outcome the configured `Retry` strategy retries: urllib3's
`Retry(total=3, ...)` leaves its `connect` and `read` counters at their
default of `total`, so connection errors and read timeouts are retried
(POST is in `allowed_methods`), as are responses whose HTTP status is in
`status_forcelist`; any other response, and any exception raised outside
the transport (`.exc`), is terminal for the session. -/
def isRetryable (o : HttpOutcome) : Bool :=
  match o with
  | .connError => true
  | .timeoutErr => true
  | .exc => false
  | .resp status _ _ => status_forcelist.contains status

/-- Modelled from the claim's words (to be compared with `isRetryable`,
the strategy the source configures): an outcome the claim says is the
only kind retried — a response whose HTTP status is one of
429/500/502/503/504. -/
def isForcelistStatus (o : HttpOutcome) : Bool :=
  match o with
  | .resp status _ _ => status_forcelist.contains status
  | _ => false

/-- The session's attempt loop: `net` gives the outcome of the n-th HTTP
attempt; retryable outcomes are retried while retry budget (`fuel`,
initially `retry_total`) remains. Returns the number of attempts made and
the final outcome handed back to `_rpc_call`. -/
def sessionLoop (net : Nat → HttpOutcome) (i fuel : Nat) : Nat × HttpOutcome :=
  let o := net i
  match fuel with
  | 0 => (i + 1, o)
  | f + 1 => if isRetryable o then sessionLoop net (i + 1) f else (i + 1, o)

/-- From `QIENodeManager._create_session` mounted on the session used by
`_rpc_call`: `self.session.post(...)` with the retry strategy above. -/
def sessionPost (net : Nat → HttpOutcome) : Nat × HttpOutcome :=
  sessionLoop net 0 retry_total

/-- Python exceptions distinguished by `_rpc_call`'s handlers. -/
inductive PyError where
  | connectionError
  | timeoutError
  | httpError (status : Nat)
  | other
  deriving DecidableEq, Repr

/-- The `try` block of `QIENodeManager._rpc_call`: post via the session,
`raise_for_status()` (raises on HTTP status >= 400), then return `{}` when
the body has a truthy `error` field, else `data.get("result", {})`.
Exceptions escaping the block are the `Except.error` values. -/
def rpc_call_body (net : Nat → HttpOutcome) :
    Except PyError (List (String × String)) :=
  match (sessionPost net).2 with
  | .connError => .error .connectionError
  | .timeoutErr => .error .timeoutError
  | .exc => .error .other
  | .resp status err result =>
      if 400 ≤ status then .error (.httpError status)
      else
        match err with
        | some _ => .ok []
        | none => .ok (result.getD [])

/-- From `QIENodeManager._rpc_call`: every `except` handler (connection
error, timeout, any other exception) logs and returns `{}`, so the call
never raises to its caller. -/
def rpc_call (net : Nat → HttpOutcome) : List (String × String) :=
  match rpc_call_body net with
  | .ok d => d
  | .error _ => []

/-- Alert types from `database/models.py` (`AlertType`). -/
inductive AlertType where
  | anomaly
  | timeoutKind
  | errorKind
  deriving DecidableEq, Repr

/-- Alert severities from `database/models.py` (`AlertSeverity`). -/
inductive AlertSeverity where
  | info
  | warning
  | error
  | critical
  deriving DecidableEq, Repr

/-- The `Alert` row of `database/models.py`: `is_resolved` defaults to
false, `resolved_at` is nullable with no default (so it is NULL unless a
writer sets it). Timestamps are rationals. -/
structure AlertRec where
  transaction_id : Nat
  alert_type : AlertType
  severity : AlertSeverity
  message : String
  is_resolved : Bool
  resolved_at : Option ℚ
  deriving DecidableEq, Repr

/-- The fields of a `Transaction` row that `SeedData.seed_alerts` reads. -/
structure TxRow where
  id : Nat
  tx_hash : String
  status : String
  deriving DecidableEq, Repr

/-- From `SeedData.seed_alerts`: `alert_types = [ANOMALY, TIMEOUT, ERROR]`. -/
def alert_types : List AlertType := [.anomaly, .timeoutKind, .errorKind]

/-- From `SeedData.seed_alerts`:
`severities = [INFO, WARNING, ERROR, CRITICAL]`. -/
def seed_severities : List AlertSeverity := [.info, .warning, .error, .critical]

/-- From `database/db.py`, `SeedData.seed_alerts`: for every third
transaction (`i % 3 == 0`) an `Alert` is created with
`alert_type = alert_types[i % 3]`, `severity = severities[i % 4]`,
`is_resolved = (i % 5 == 0)`; the constructor never passes `resolved_at`,
so it stays NULL. -/
def seed_alerts (txs : List TxRow) : List AlertRec :=
  txs.enum.filterMap fun p =>
    if p.1 % 3 = 0 then
      some
        { transaction_id := p.2.id
          alert_type := alert_types.getD (p.1 % 3) .anomaly
          severity := seed_severities.getD (p.1 % 4) .info
          message := "Alert for transaction " ++ p.2.tx_hash.take 16
            ++ "... - Status: " ++ p.2.status
          is_resolved := decide (p.1 % 5 = 0)
          resolved_at := none }
    else none

/-- Session lifecycle events observed by `DatabaseManager.get_session`. -/
inductive SessionEvent where
  | commit
  | rollback
  | close
  deriving DecidableEq, Repr

/-- From `database/db.py`, `DatabaseManager.get_session`: the enclosed unit
of work is modelled by its outcome (`Except`): `try: yield; commit`,
`except: rollback; raise`, `finally: close`. Returns what reaches the
caller and the ordered session events. -/
def get_session {E α : Type} (work : Except E α) :
    Except E α × List SessionEvent :=
  match work with
  | .ok a => (.ok a, [.commit, .close])
  | .error e => (.error e, [.rollback, .close])

/-- Outcome of the `requests.post(WEBHOOK_URL, ...)` call inside
`send_anomaly_alert`: delivered, or raised (failure). -/
inductive WebhookResult where
  | delivered
  | failed
  deriving DecidableEq, Repr

/-- An entry of `alerts_log` appended by `send_anomaly_alert`. -/
structure AlertEntry where
  transaction_hash : String
  severity : Severity
  reason : String
  request_id : String
  deriving DecidableEq, Repr

/-- The observable outcome of one `send_anomaly_alert` request: what the
endpoint hands back to the caller (an exception would be `Except.error`),
the new `alerts_log`, whether a webhook post was attempted and whether it
delivered, and the timeout passed to `requests.post`. -/
structure AlertDispatch where
  response : Except String (String × Bool)
  log : List AlertEntry
  webhookAttempted : Bool
  webhookDelivered : Bool
  webhookTimeout : ℚ
  deriving Repr

/-- From `app.py`, `send_anomaly_alert`: appends the alert to `alerts_log`;
when `WEBHOOK_URL` is set, posts it with `timeout=5` inside a
`try/except` whose handler only logs; finally responds with
`{"alert_id": request_id, "sent": True}`. The response's pair is
`(alert_id, sent)`. -/
def send_anomaly_alert (alert : AlertEntry) (webhook_url : Option String)
    (hook : WebhookResult) (log : List AlertEntry) : AlertDispatch :=
  let log2 := log ++ [alert]
  let attempted := webhook_url.isSome
  let delivered := attempted && (match hook with
    | .delivered => true
    | .failed => false)
  { response := .ok (alert.request_id, true)
    log := log2
    webhookAttempted := attempted
    webhookDelivered := delivered
    webhookTimeout := 5 }

example : severityOf (81/100) = .critical := by unfold severityOf; norm_num
example : severityOf (8/10) = .high := by unfold severityOf; norm_num
example : severityOf (4/10) = .low := by unfold severityOf; norm_num
example : pyRound2 (1234567/10000) = 12346/100 := by
  unfold pyRound2 pyRound; norm_num
example : (validate_cross_chain "h" 1 (8/10) []).1.confidence = 80 := by
  unfold validate_cross_chain pyRound2 pyRound; norm_num
example : wait_for_sync (fun _ => (false, 7)) 3 =
    { synced := false, attempts := 3, height := 7 } := by decide
example : sessionPost (fun _ => .connError) = (4, .connError) := by decide
example : rpc_call (fun _ => .connError) = [] := by decide
example : (seed_alerts [{ id := 1, tx_hash := "abcdef", status := "pending" }]).map
    (fun a => (a.is_resolved, a.resolved_at)) = [(true, none)] := by decide
example : check_rate_limit 1 61 [0] = (true, [61]) := by
  simp only [check_rate_limit]
  norm_num

/-! Helper lemmas about `pyRound`. -/

theorem pyRound_nonneg {x : ℚ} (hx : 0 ≤ x) : 0 ≤ pyRound x := by
  have hf : (0 : ℤ) ≤ ⌊x⌋ := Int.floor_nonneg.mpr hx
  unfold pyRound
  split_ifs <;> omega

theorem pyRound_le_of_le {x : ℚ} {n : ℤ} (hx : x ≤ n) : pyRound x ≤ n := by
  have hf : ⌊x⌋ ≤ n := by
    have h := Int.floor_le_floor (α := ℚ) hx
    simpa using h
  have hfl : (⌊x⌋ : ℚ) ≤ x := Int.floor_le x
  unfold pyRound
  split_ifs with h1 h2 h3
  · exact hf
  · have hlt : ⌊x⌋ < n := by
      rcases eq_or_lt_of_le hf with h | h
      · exfalso
        apply h1
        have hxn : x - (⌊x⌋ : ℚ) ≤ 0 := by
          rw [h]
          linarith
        linarith
      · exact h
    omega
  · exact hf
  · have hlt : ⌊x⌋ < n := by
      rcases eq_or_lt_of_le hf with h | h
      · exfalso
        apply h1
        have hxn : x - (⌊x⌋ : ℚ) ≤ 0 := by
          rw [h]
          linarith
        linarith
      · exact h
    omega

/-- C1: for every valid validation request (all required fields present,
amount > 0), `validate_cross_chain` returns `valid = true` exactly when
the model confidence exceeds 0.75, and the confidence it reports is the
raw [0,1] score scaled by 100 and rounded to 2 decimal places, so it
always lies in [0,100]. -/
theorem C1_validate_cross_chain_spec (hash : String) (amount score : ℚ)
    (history : List TxRecord) (_hamt : 0 < amount) (h0 : 0 ≤ score)
    (h1 : score ≤ 1) :
    ((validate_cross_chain hash amount score history).1.valid = true
        ↔ 75/100 < score)
    ∧ (validate_cross_chain hash amount score history).1.confidence
        = pyRound2 (score * 100)
    ∧ 0 ≤ (validate_cross_chain hash amount score history).1.confidence
    ∧ (validate_cross_chain hash amount score history).1.confidence ≤ 100 := by
  refine ⟨?_, rfl, ?_, ?_⟩
  · simp [validate_cross_chain]
  · show 0 ≤ pyRound2 (score * 100)
    unfold pyRound2
    have hx : (0 : ℚ) ≤ score * 100 * 100 := by positivity
    have h := pyRound_nonneg hx
    have h2 : (0 : ℚ) ≤ (pyRound (score * 100 * 100) : ℚ) := by
      exact_mod_cast h
    linarith
  · show pyRound2 (score * 100) ≤ 100
    unfold pyRound2
    have hx : score * 100 * 100 ≤ ((10000 : ℤ) : ℚ) := by
      push_cast
      nlinarith
    have h := pyRound_le_of_le hx
    have h2 : ((pyRound (score * 100 * 100)) : ℚ) ≤ 10000 := by
      exact_mod_cast h
    linarith

theorem C1_validate_cross_chain_spec_witness :
    (0 : ℚ) < 1 ∧ (0 : ℚ) ≤ 8/10 ∧ (8/10 : ℚ) ≤ 1
    ∧ (((validate_cross_chain "h" 1 (8/10) []).1.valid = true
          ↔ (75/100 : ℚ) < 8/10)
       ∧ (validate_cross_chain "h" 1 (8/10) []).1.confidence
          = pyRound2 ((8/10) * 100)
       ∧ 0 ≤ (validate_cross_chain "h" 1 (8/10) []).1.confidence
       ∧ (validate_cross_chain "h" 1 (8/10) []).1.confidence ≤ 100) :=
  ⟨by norm_num, by norm_num, by norm_num,
    C1_validate_cross_chain_spec "h" 1 (8/10) [] (by norm_num) (by norm_num)
      (by norm_num)⟩

/-- C2: for every anomaly score, the severity assigned by `severityOf` is
a strict, total, non-overlapping partition: score > 0.8 maps to critical,
0.6 < score <= 0.8 to high, 0.4 < score <= 0.6 to medium, and
score <= 0.4 to low; in particular 0.81 -> critical, 0.8 -> high,
0.61 -> high, 0.6 -> medium, 0.4 -> low, 0.39 -> low. -/
theorem C2_severity_partition (s : ℚ) :
    (severityOf s = .critical ↔ 8/10 < s)
    ∧ (severityOf s = .high ↔ 6/10 < s ∧ s ≤ 8/10)
    ∧ (severityOf s = .medium ↔ 4/10 < s ∧ s ≤ 6/10)
    ∧ (severityOf s = .low ↔ s ≤ 4/10)
    ∧ severityOf (81/100) = .critical
    ∧ severityOf (8/10) = .high
    ∧ severityOf (61/100) = .high
    ∧ severityOf (6/10) = .medium
    ∧ severityOf (4/10) = .low
    ∧ severityOf (39/100) = .low := by
  have key : ∀ t : ℚ, (severityOf t = .critical ↔ 8/10 < t)
      ∧ (severityOf t = .high ↔ 6/10 < t ∧ t ≤ 8/10)
      ∧ (severityOf t = .medium ↔ 4/10 < t ∧ t ≤ 6/10)
      ∧ (severityOf t = .low ↔ t ≤ 4/10) := by
    intro t
    unfold severityOf
    split_ifs with h1 h2 h3 <;>
      refine ⟨?_, ?_, ?_, ?_⟩ <;> simp_all <;> first
        | linarith
        | (intro h; linarith)
  refine ⟨(key s).1, (key s).2.1, (key s).2.2.1, (key s).2.2.2,
    ((key _).1).mpr (by norm_num),
    ((key _).2.1).mpr (by norm_num),
    ((key _).2.1).mpr (by norm_num),
    ((key _).2.2.1).mpr (by norm_num),
    ((key _).2.2.2).mpr (by norm_num),
    ((key _).2.2.2).mpr (by norm_num)⟩

/-- C3: an alert record is appended to the alerts log by
`get_anomaly_score` if and only if the underlying [0,1] anomaly score is
strictly greater than 0.7: at a score of exactly 0.70 no alert is
created, at 0.71 an alert is created; scores of at most 0.7 leave the
alerts log unchanged. -/
theorem C3_anomaly_alert_iff (hash : String) (score : ℚ)
    (log : List AnomalyRecord) :
    ((get_anomaly_score hash score log).2
        = if 7/10 < score then
            log ++ [(get_anomaly_score hash score log).1]
          else log)
    ∧ ((get_anomaly_score hash score log).2
        = log ++ [(get_anomaly_score hash score log).1] ↔ 7/10 < score)
    ∧ (get_anomaly_score "t" (7/10) []).2 = []
    ∧ (get_anomaly_score "t" (71/100) []).2
        = [(get_anomaly_score "t" (71/100) []).1] := by
  refine ⟨rfl, ?_, ?_, ?_⟩
  · constructor
    · intro h
      by_contra hs
      rw [show (get_anomaly_score hash score log).2 = log by
        simp [get_anomaly_score, hs]] at h
      have hlen := congrArg List.length h
      simp at hlen
    · intro hs
      simp [get_anomaly_score, hs]
  · simp [get_anomaly_score]
  · norm_num [get_anomaly_score]

/-- C10: for every non-negative limit and offset, `get_transaction_history`
returns exactly the contiguous slice of the validation history from index
offset up to (but excluding) offset + limit, together with total equal to
the full history length and the limit and offset echoed back; when offset
is at least the history length the returned transaction list is empty;
the query never fails for out-of-range values and never mutates the
history. -/
theorem C10_history_slice (history : List TxRecord) (limit offset : Nat) :
    (get_transaction_history history limit offset).total = history.length
    ∧ (get_transaction_history history limit offset).limit = limit
    ∧ (get_transaction_history history limit offset).offset = offset
    ∧ (∀ i : Nat, (get_transaction_history history limit offset).transactions[i]?
        = if i < limit then history[offset + i]? else none)
    ∧ (get_transaction_history history limit offset).transactions.length
        = min limit (history.length - offset)
    ∧ (history.length ≤ offset →
        (get_transaction_history history limit offset).transactions = []) := by
  refine ⟨rfl, rfl, rfl, ?_, ?_, ?_⟩
  · intro i
    show ((history.drop offset).take limit)[i]? = _
    rw [List.getElem?_take, List.getElem?_drop]
  · show ((history.drop offset).take limit).length = _
    rw [List.length_take, List.length_drop]
  · intro h
    show (history.drop offset).take limit = []
    rw [List.drop_eq_nil_of_le h, List.take_nil]

theorem C10_history_slice_witness :
    ((get_transaction_history [] 20 3).total
        = List.length ([] : List TxRecord)
      ∧ (get_transaction_history [] 20 3).limit = 20
      ∧ (get_transaction_history [] 20 3).offset = 3
      ∧ (∀ i : Nat, (get_transaction_history [] 20 3).transactions[i]?
          = if i < 20 then ([] : List TxRecord)[3 + i]? else none)
      ∧ (get_transaction_history [] 20 3).transactions.length
          = min 20 (List.length ([] : List TxRecord) - 3)
      ∧ (List.length ([] : List TxRecord) ≤ 3 →
          (get_transaction_history [] 20 3).transactions = [])) :=
  C10_history_slice [] 20 3

/-! Helper lemmas for the rate limiter (C4). -/

theorem check_rate_limit_pruned (limit : Nat) (now : ℚ) (times : List ℚ) :
    ((check_rate_limit limit now times).1 = true
        ↔ (times.filter (fun t => decide (now - 60 < t))).length < limit)
    ∧ ((check_rate_limit limit now times).1 = true →
        (check_rate_limit limit now times).2
          = times.filter (fun t => decide (now - 60 < t)) ++ [now])
    ∧ ((check_rate_limit limit now times).1 = false →
        (check_rate_limit limit now times).2
          = times.filter (fun t => decide (now - 60 < t))) := by
  simp only [check_rate_limit]
  split_ifs with h
  · simp
    omega
  · simp
    omega

theorem runRequests_burst (limit : Nat) (t : ℚ) :
    ∀ n k : Nat, k ≤ limit →
      runRequests limit (List.replicate k t) (List.replicate n t)
        = (min n (limit - k), List.replicate (min (k + n) limit) t) := by
  intro n
  induction n with
  | zero =>
      intro k hk
      simp [runRequests, Nat.min_eq_left hk]
  | succ m ih =>
      intro k hk
      rw [List.replicate_succ, runRequests]
      have hfil : (List.replicate k t).filter (fun s => decide (t - 60 < s))
          = List.replicate k t := by
        rw [List.filter_replicate]
        simp only [decide_eq_true_eq]
        rw [if_pos (by linarith)]
      by_cases hlt : k < limit
      · have hstep : check_rate_limit limit t (List.replicate k t)
            = (true, List.replicate (k + 1) t) := by
          simp only [check_rate_limit]
          rw [hfil]
          rw [if_neg (by simp; omega)]
          rw [← List.replicate_succ' k t]
        rw [hstep]
        simp only
        rw [ih (k + 1) (by omega)]
        refine Prod.ext ?_ ?_
        · show 1 + min m (limit - (k + 1)) = min (m + 1) (limit - k)
          omega
        · show List.replicate (min (k + 1 + m) limit) t
            = List.replicate (min (k + (m + 1)) limit) t
          congr 1
          omega
      · have hge : limit ≤ k := by omega
        have hstep : check_rate_limit limit t (List.replicate k t)
            = (false, List.replicate k t) := by
          simp only [check_rate_limit]
          rw [hfil]
          rw [if_pos (by simp [hge])]
        rw [hstep]
        simp only
        rw [ih k hk]
        refine Prod.ext ?_ ?_
        · show 0 + min m (limit - k) = min (m + 1) (limit - k)
          omega
        · show List.replicate (min (k + m) limit) t
            = List.replicate (min (k + (m + 1)) limit) t
          congr 1
          omega

/-- C4: for every client, `check_rate_limit` counts only that client's
recorded timestamps strictly greater than now minus 60 seconds (pruning
older ones lazily at check time); if that count is at least the limit
(default 100) the request is rejected and no timestamp is recorded,
otherwise the request is admitted and the current time is recorded — so
exactly limit requests are admitted per 60-second sliding window per
client and the limit+1-th is rejected, and after the window passes the
client's quota resets. -/
theorem C4_rate_limiter (limit : Nat) (now t : ℚ) (times : List ℚ) (n : Nat) :
    ((check_rate_limit limit now times).1 = true
        ↔ (times.filter (fun s => decide (now - 60 < s))).length < limit)
    ∧ ((check_rate_limit limit now times).1 = true →
        (check_rate_limit limit now times).2
          = times.filter (fun s => decide (now - 60 < s)) ++ [now])
    ∧ ((check_rate_limit limit now times).1 = false →
        (check_rate_limit limit now times).2
          = times.filter (fun s => decide (now - 60 < s)))
    ∧ ((∀ s ∈ times, s ≤ now - 60) → 0 < limit →
        check_rate_limit limit now times = (true, [now]))
    ∧ (runRequests limit [] (List.replicate n t)).1 = min n limit
    ∧ (runRequests RATE_LIMIT [] (List.replicate (RATE_LIMIT + 1) t)).1
        = RATE_LIMIT
    ∧ RATE_LIMIT = 100 := by
  refine ⟨(check_rate_limit_pruned limit now times).1,
    (check_rate_limit_pruned limit now times).2.1,
    (check_rate_limit_pruned limit now times).2.2, ?_, ?_, ?_, rfl⟩
  · intro hstale hpos
    have hfil : times.filter (fun s => decide (now - 60 < s)) = [] := by
      rw [List.filter_eq_nil_iff]
      intro a ha
      simp only [decide_eq_true_eq, not_lt]
      exact hstale a ha
    simp only [check_rate_limit, hfil]
    rw [if_neg (by simp only [List.length_nil]; omega)]
    simp
  · have h := runRequests_burst limit t n 0 (Nat.zero_le limit)
    simp only [List.replicate_zero, Nat.add_zero, Nat.sub_zero] at h
    rw [h]
  · have h := runRequests_burst RATE_LIMIT t (RATE_LIMIT + 1) 0
      (Nat.zero_le RATE_LIMIT)
    simp only [List.replicate_zero, Nat.add_zero, Nat.sub_zero] at h
    rw [h]
    omega

theorem C4_rate_limiter_witness :
    check_rate_limit 1 61 [1] = (true, [61])
    ∧ (check_rate_limit 1 61 [1]).2
        = [(1 : ℚ)].filter (fun s => decide ((61 : ℚ) - 60 < s)) ++ [61]
    ∧ (check_rate_limit 0 61 [1]).2
        = [(1 : ℚ)].filter (fun s => decide ((61 : ℚ) - 60 < s))
    ∧ (runRequests 2 [] (List.replicate 3 (0 : ℚ))).1 = min 3 2 :=
  ⟨(C4_rate_limiter 1 61 0 [1] 0).2.2.2.1
      (by intro s hs; simp at hs; subst hs; norm_num) (by norm_num),
    (C4_rate_limiter 1 61 0 [1] 0).2.1
      (by simp only [check_rate_limit]; norm_num),
    (C4_rate_limiter 0 61 0 [1] 0).2.2.1
      (by simp only [check_rate_limit]; norm_num),
    (C4_rate_limiter 2 0 0 [] 3).2.2.2.2.1⟩

/-! Helper lemmas for `wait_for_sync` (C5). -/

theorem waitLoop_attempts_le (health : Nat → Bool × Nat) :
    ∀ r a, (waitLoop health a r).attempts ≤ a + r := by
  intro r
  induction r with
  | zero => intro a; simp [waitLoop]
  | succ s ih =>
      intro a
      rw [waitLoop]
      by_cases h : (health a).1 = true
      · rw [if_pos h]
        show a + 1 ≤ a + (s + 1)
        omega
      · rw [if_neg h]
        have := ih (a + 1)
        omega

theorem waitLoop_not_synced (health : Nat → Bool × Nat) :
    ∀ r a, (waitLoop health a r).synced = false →
      (waitLoop health a r).attempts = a + r := by
  intro r
  induction r with
  | zero => intro a _; simp [waitLoop]
  | succ s ih =>
      intro a hs
      rw [waitLoop] at hs ⊢
      by_cases h : (health a).1
      · simp [h] at hs
      · simp [h] at hs ⊢
        have := ih (a + 1) hs
        omega

theorem waitLoop_never (health : Nat → Bool × Nat)
    (hnever : ∀ i, (health i).1 = false) :
    ∀ r a, waitLoop health a r
      = { synced := false, attempts := a + r, height := (health (a + r)).2 } := by
  intro r
  induction r with
  | zero => intro a; simp [waitLoop]
  | succ s ih =>
      intro a
      rw [waitLoop]
      rw [if_neg (by rw [hnever a]; simp)]
      rw [ih (a + 1)]
      have : a + 1 + s = a + (s + 1) := by omega
      rw [this]

theorem waitLoop_first_healthy (health : Nat → Bool × Nat) :
    ∀ k r a, k < r → (∀ i, i < k → (health (a + i)).1 = false) →
      (health (a + k)).1 = true →
      waitLoop health a r
        = { synced := true, attempts := a + k + 1,
            height := (health (a + k)).2 } := by
  intro k
  induction k with
  | zero =>
      intro r a hr _ hh
      match r, hr with
      | s + 1, _ =>
        rw [waitLoop]
        simp only [Nat.add_zero] at hh
        rw [if_pos hh]
        simp
  | succ j ih =>
      intro r a hr hbefore hh
      match r, hr with
      | s + 1, _ =>
        rw [waitLoop]
        rw [if_neg (by
          have h0 := hbefore 0 (Nat.succ_pos j)
          rw [Nat.add_zero] at h0
          rw [h0]
          simp)]
        have hshift : ∀ i, i < j → (health (a + 1 + i)).1 = false := by
          intro i hi
          have := hbefore (i + 1) (by omega)
          have harith : a + (i + 1) = a + 1 + i := by omega
          rwa [harith] at this
        have hh2 : (health (a + 1 + j)).1 = true := by
          have harith : a + (j + 1) = a + 1 + j := by omega
          rwa [harith] at hh
        rw [ih s (a + 1) (by omega) hshift hh2]
        have h1 : a + 1 + j = a + (j + 1) := by omega
        rw [h1]

/-- C5: `wait_for_sync(max_attempts, interval)` performs at most
max_attempts polling attempts and always terminates: against a node whose
health check never reports healthy, it returns synced = false with
attempts = max_attempts (e.g. 3 for max_attempts = 3) and never hangs;
when the node becomes healthy on (1-based) attempt k + 1 <= max_attempts
it returns synced = true with attempts = k + 1. -/
theorem C5_wait_for_sync_attempts (health : Nat → Bool × Nat) (m k : Nat) :
    (wait_for_sync health m).attempts ≤ m
    ∧ ((wait_for_sync health m).synced = false →
        (wait_for_sync health m).attempts = m)
    ∧ ((∀ i, (health i).1 = false) →
        wait_for_sync health m
          = { synced := false, attempts := m, height := (health m).2 })
    ∧ (k < m → (∀ i, i < k → (health i).1 = false) → (health k).1 = true →
        wait_for_sync health m
          = { synced := true, attempts := k + 1, height := (health k).2 }) := by
  refine ⟨?_, ?_, ?_, ?_⟩
  · have := waitLoop_attempts_le health m 0
    simpa [wait_for_sync] using this
  · intro hs
    have := waitLoop_not_synced health m 0 hs
    simpa [wait_for_sync] using this
  · intro hnever
    have := waitLoop_never health hnever m 0
    simpa [wait_for_sync] using this
  · intro hk hbefore hh
    have := waitLoop_first_healthy health k m 0 hk
      (by intro i hi; simpa using hbefore i hi) (by simpa using hh)
    simpa [wait_for_sync] using this

theorem C5_wait_for_sync_attempts_witness :
    wait_for_sync (fun _ => (false, 5)) 3
      = { synced := false, attempts := 3, height := 5 }
    ∧ wait_for_sync (fun i => (decide (i = 1), 9)) 3
      = { synced := true, attempts := 2, height := 9 } :=
  ⟨(C5_wait_for_sync_attempts (fun _ => (false, 5)) 3 0).2.2.1 (fun _ => rfl),
    (C5_wait_for_sync_attempts (fun i => (decide (i = 1), 9)) 3 1).2.2.2
      (by norm_num)
      (by
        intro i hi
        have : i = 0 := by omega
        subst this
        rfl)
      (by rfl)⟩

/-! Helper lemmas for the RPC session retry loop (C6). -/

theorem sessionLoop_count (net : Nat → HttpOutcome) :
    ∀ fuel i, i + 1 ≤ (sessionLoop net i fuel).1
      ∧ (sessionLoop net i fuel).1 ≤ i + fuel + 1 := by
  intro fuel
  induction fuel with
  | zero => intro i; simp [sessionLoop]
  | succ f ih =>
      intro i
      rw [sessionLoop]
      by_cases h : isRetryable (net i) = true
      · rw [if_pos h]
        have := ih (i + 1)
        omega
      · rw [if_neg h]
        constructor
        · omega
        · show i + 1 ≤ i + (f + 1) + 1
          omega

theorem sessionLoop_retried (net : Nat → HttpOutcome) :
    ∀ fuel i j, i ≤ j → j + 1 < (sessionLoop net i fuel).1 →
      isRetryable (net j) = true := by
  intro fuel
  induction fuel with
  | zero =>
      intro i j hij hj
      simp [sessionLoop] at hj
      omega
  | succ f ih =>
      intro i j hij hj
      rw [sessionLoop] at hj
      by_cases h : isRetryable (net i) = true
      · rw [if_pos h] at hj
        rcases Nat.eq_or_lt_of_le hij with heq | hlt
        · rw [← heq]
          exact h
        · exact ih (i + 1) j hlt hj
      · rw [if_neg h] at hj
        simp at hj
        omega

theorem sessionLoop_first_final (net : Nat → HttpOutcome) (i fuel : Nat)
    (h : isRetryable (net i) = false) :
    sessionLoop net i fuel = (i + 1, net i) := by
  cases fuel with
  | zero => rfl
  | succ f =>
      rw [sessionLoop]
      rw [if_neg (by rw [h]; simp)]

/-- C6 counterexample: the configured `Retry(total=3)` also retries
connection errors (its `connect` counter defaults to `total`), so on a
trace whose first attempt is a connection error the session makes a
second HTTP attempt even though a connection error is not a response
with status 429/500/502/503/504 — refuting that automatic retry applies
only to those transport-layer HTTP failures. -/
theorem C6_counterexample :
    (sessionPost (fun i => if i = 0 then HttpOutcome.connError
        else HttpOutcome.resp 200 none (some [("result", "synced")]))).1 = 2
    ∧ isForcelistStatus HttpOutcome.connError = false := by
  constructor
  · decide
  · rfl

/-- C6 amended: for every RPC method and parameters, `rpc_call` never
raises to its caller: on connection failure, on timeout, on any other
transport exception, and on a JSON-RPC response with a non-empty error
field, it returns an empty result rather than an exception;
application-level JSON-RPC errors are terminal per call and are not
retried; automatic retry (up to 3 retry attempts, backoff factor 1s)
applies to transport-layer failures — connection errors, read timeouts,
and responses with HTTP status 429/500/502/503/504 — and to nothing
else, while non-transport exceptions and responses outside the
forcelist are terminal. -/
theorem C6_rpc_call_failures (net : Nat → HttpOutcome) :
    (∀ e, rpc_call_body net = .error e → rpc_call net = [])
    ∧ (∀ d, rpc_call_body net = .ok d → rpc_call net = d)
    ∧ ((sessionPost net).2 = .connError → rpc_call net = [])
    ∧ ((sessionPost net).2 = .timeoutErr → rpc_call net = [])
    ∧ ((sessionPost net).2 = .exc → rpc_call net = [])
    ∧ (∀ s e r, (sessionPost net).2 = .resp s (some e) r → rpc_call net = [])
    ∧ 1 ≤ (sessionPost net).1
    ∧ (sessionPost net).1 ≤ retry_total + 1
    ∧ (∀ j, j + 1 < (sessionPost net).1 → isRetryable (net j) = true)
    ∧ (∀ e r, net 0 = .resp 200 (some e) r →
        (sessionPost net).1 = 1 ∧ rpc_call net = [])
    ∧ isRetryable .connError = true
    ∧ isRetryable .timeoutErr = true
    ∧ isRetryable .exc = false
    ∧ (∀ s e r, isRetryable (.resp s e r) = status_forcelist.contains s)
    ∧ retry_total = 3 ∧ backoff_factor = 1
    ∧ status_forcelist = [429, 500, 502, 503, 504] := by
  refine ⟨?_, ?_, ?_, ?_, ?_, ?_, ?_, ?_, ?_, ?_, rfl, rfl, rfl,
    fun s e r => rfl, rfl, rfl, rfl⟩
  · intro e h
    simp [rpc_call, h]
  · intro d h
    simp [rpc_call, h]
  · intro h
    simp [rpc_call, rpc_call_body, h]
  · intro h
    simp [rpc_call, rpc_call_body, h]
  · intro h
    simp [rpc_call, rpc_call_body, h]
  · intro s e r h
    simp only [rpc_call, rpc_call_body, h]
    split_ifs <;> rfl
  · exact (sessionLoop_count net retry_total 0).1
  · have := (sessionLoop_count net retry_total 0).2
    simpa [sessionPost] using this
  · intro j hj
    exact sessionLoop_retried net retry_total 0 j (Nat.zero_le j) hj
  · intro e r h0
    have hret : isRetryable (net 0) = false := by
      rw [h0]
      rfl
    have hpost : sessionPost net = (1, net 0) :=
      sessionLoop_first_final net 0 retry_total hret
    refine ⟨by rw [hpost], ?_⟩
    have h2 : (sessionPost net).2 = .resp 200 (some e) r := by
      rw [hpost, h0]
    simp only [rpc_call, rpc_call_body, h2]
    rfl

theorem C6_rpc_call_failures_witness :
    rpc_call (fun _ => .connError) = []
    ∧ ((sessionPost (fun _ => .resp 200 (some "boom") none)).1 = 1
        ∧ rpc_call (fun _ => .resp 200 (some "boom") none) = []) :=
  ⟨(C6_rpc_call_failures (fun _ => .connError)).2.2.1 rfl,
    (C6_rpc_call_failures
        (fun _ => .resp 200 (some "boom") none)).2.2.2.2.2.2.2.2.2.1
      "boom" none rfl⟩

/-- C7 counterexample: `seed_alerts` over a single transaction creates an
alert with `is_resolved = true` whose `resolved_at` is NULL, so the
claimed iff between a non-null `resolved_at` and `is_resolved` fails on a
record the system produces. -/
theorem C7_counterexample :
    (∀ a ∈ seed_alerts [{ id := 1, tx_hash := "abcdef", status := "pending" }],
        (a.resolved_at ≠ none ↔ a.is_resolved = true)) ↔ False := by
  simp only [iff_false]
  decide

/-- C7 amended: every Alert record produced by seeding has
`resolved_at = NULL` (no operation of the repository ever sets
`resolved_at`), so a non-null `resolved_at` implies `is_resolved` only
vacuously; the converse fails: seeding sets `is_resolved = true` for
every transaction index divisible by 15 while leaving `resolved_at`
NULL. -/
theorem C7_seed_alerts_resolved_at (txs : List TxRow) :
    (∀ a ∈ seed_alerts txs, a.resolved_at = none)
    ∧ (∀ a ∈ seed_alerts txs, a.resolved_at ≠ none → a.is_resolved = true)
    ∧ (∀ tx : TxRow, ∃ a ∈ seed_alerts [tx],
        a.is_resolved = true ∧ a.resolved_at = none) := by
  have hnull : ∀ a ∈ seed_alerts txs, a.resolved_at = none := by
    intro a ha
    rw [seed_alerts, List.mem_filterMap] at ha
    obtain ⟨x, _, hx⟩ := ha
    by_cases h3 : x.1 % 3 = 0
    · rw [if_pos h3] at hx
      rw [← Option.some_inj.mp hx]
    · rw [if_neg h3] at hx
      exact absurd hx (by simp)
  refine ⟨hnull, ?_, ?_⟩
  · intro a ha hne
    exact absurd (hnull a ha) hne
  · intro tx
    refine ⟨{ transaction_id := tx.id
              alert_type := .anomaly
              severity := .info
              message := "Alert for transaction " ++ tx.tx_hash.take 16
                ++ "... - Status: " ++ tx.status
              is_resolved := true
              resolved_at := none }, ?_, rfl, rfl⟩
    rw [seed_alerts, List.mem_filterMap]
    refine ⟨(0, tx), by simp [List.enum], ?_⟩
    simp [alert_types, seed_severities]

theorem C7_seed_alerts_resolved_at_witness :
    ((∀ a ∈ seed_alerts ([] : List TxRow), a.resolved_at = none)
      ∧ (∀ a ∈ seed_alerts ([] : List TxRow),
          a.resolved_at ≠ none → a.is_resolved = true)
      ∧ (∀ tx : TxRow, ∃ a ∈ seed_alerts [tx],
          a.is_resolved = true ∧ a.resolved_at = none)) :=
  C7_seed_alerts_resolved_at []

/-- C8: for every unit of work executed through `get_session`, the session
is committed when the work completes without exception; when the work
raises any exception the session is rolled back and the same exception is
re-raised to the caller; and in both cases the session is closed on
exit. -/
theorem C8_get_session_discipline (E α : Type) (work : Except E α) :
    ((get_session work).2.getLast? = some .close)
    ∧ (∀ a : α, work = .ok a →
        get_session work = (.ok a, [.commit, .close]))
    ∧ (∀ e : E, work = .error e →
        get_session work = (.error e, [.rollback, .close]))
    ∧ (SessionEvent.close ∈ (get_session work).2) := by
  cases work <;> simp [get_session]

theorem C8_get_session_discipline_witness :
    get_session (Except.ok (1 : Nat) : Except Nat Nat)
      = (.ok 1, [.commit, .close])
    ∧ get_session (Except.error (2 : Nat) : Except Nat Nat)
      = (.error 2, [.rollback, .close]) :=
  ⟨(C8_get_session_discipline Nat Nat (.ok 1)).2.1 1 rfl,
    (C8_get_session_discipline Nat Nat (.error 2)).2.2.1 2 rfl⟩

/-- C9 counterexample: with a webhook configured and delivery failing,
`send_anomaly_alert` still responds `sent = true`, so the response does
not signal the undelivered outcome as the claim requires. -/
theorem C9_counterexample :
    (send_anomaly_alert
        { transaction_hash := "h", severity := .high, reason := "r",
          request_id := "REQ-1" }
        (some "http://hook") .failed []).webhookDelivered = false
    ∧ (send_anomaly_alert
        { transaction_hash := "h", severity := .high, reason := "r",
          request_id := "REQ-1" }
        (some "http://hook") .failed []).response
      = .ok ("REQ-1", true) :=
  ⟨rfl, rfl⟩

/-- C9 amended: for every manual alert submission, webhook delivery
failure is logged and never raises, never prevents the alert record from
being appended to the alerts log, and webhook dispatch uses its own
5-second timeout independent of the request path; however the response
reports sent = true regardless of the delivery outcome, so an
undelivered webhook is not signalled in the response. -/
theorem C9_webhook_best_effort (alert : AlertEntry) (url : Option String)
    (hook : WebhookResult) (log : List AlertEntry) :
    (send_anomaly_alert alert url hook log).response
        = .ok (alert.request_id, true)
    ∧ (send_anomaly_alert alert url hook log).log = log ++ [alert]
    ∧ (send_anomaly_alert alert url hook log).webhookTimeout = 5 :=
  ⟨rfl, rfl, rfl⟩
